import Mathlib

/-!
Shallow embedding of two modules of the space_robotics_bench repository:

* `src/space_robotics_bench/assets/light/sky.py` — the scenario lighting
  selector `sky_from_env_cfg`.
* `src/space_robotics_bench/core/teleop_devices/se3_spacemouse.py` — the
  `Se3SpaceMouse` teleoperation device adapter.

Python numbers are modelled as exact rationals (`ℚ`); real-valued rotation
math (scipy) is modelled over `ℝ`.  Fallible Python calls return `Except`.
-/

namespace SRB

/-- Python exceptions raised by the modelled code paths. -/
inductive PyError where
  | valueError (msg : String)
  | typeError (msg : String)
  | indexError (msg : String)
  | attributeError (msg : String)
deriving DecidableEq

/-- Python values carried by keyword-argument maps.  The claims only need
keys and opaque values, so a small universe of values suffices. -/
inductive PyVal where
  | num (q : ℚ)
  | str (s : String)
  | boolean (b : Bool)
deriving DecidableEq

/-! ## Scenario lighting selector (`sky.py`) -/

/-- Modelled from the spec: the scenario enum of
`space_robotics_bench.core.envs` is not under `src/`; the spec describes a
closed set of tags EARTH, MARS, ORBIT plus unrecognized others, which the
fourth constructor stands for. -/
inductive ScenarioTag where
  | EARTH
  | MARS
  | ORBIT
  | OTHER
deriving DecidableEq

/-- Modelled from the spec: a scenario exposes its tag and a per-scenario
base light intensity (`env_cfg.scenario.light_intensity` in the source). -/
structure Scenario where
  tag : ScenarioTag
  light_intensity : ℚ
deriving DecidableEq

/-- Modelled from the spec: the environment configuration object, of which
`sky_from_env_cfg` reads only the `scenario` field. -/
structure EnvironmentConfig where
  scenario : Scenario
deriving DecidableEq

/-- External asset-root constant imported from Isaac Lab; its value is
outside this repository and no claim depends on it. -/
def ISAAC_NUCLEUS_DIR : String := "ISAAC_NUCLEUS_DIR"

/-- External asset-root constant from `space_robotics_bench.paths`; its
value is outside the provided sources and no claim depends on it. -/
def SRB_ASSETS_DIR_SRB_HDRI : String := "SRB_ASSETS_DIR_SRB_HDRI"

/-- Python `os.path.join` for two components, as used in `sky.py`. -/
def pathJoin (a b : String) : String :=
  if b.startsWith "/" then b
  else if a = "" then b
  else if a.endsWith "/" then a ++ b
  else a ++ "/" ++ b

/-- The value bound to `texture_file` in `sky.py`.  The EARTH branch of the
source ends with a trailing comma, so it binds a Python 1-tuple containing
the path string, while MARS and ORBIT bind plain strings; the embedding
keeps both shapes apart. -/
inductive TexValue where
  | str (s : String)
  | tuple1 (s : String)
deriving DecidableEq

/-- The spawn configuration built by `sky_py`.  Modelled from the spec:
`sim_utils.DomeLightCfg` itself is an external scene-spawning config; per
the spec it carries the texture reference and intensity with additional
key/value spawn parameters layered on top. -/
structure DomeLightCfg where
  intensity : ℚ
  texture_file : TexValue
  extra : List (String × PyVal)
deriving DecidableEq

/-- The Python call `DomeLightCfg(intensity=…, texture_file=…, **spawn_kwargs)`:
a keyword expansion that repeats an explicitly passed keyword raises
`TypeError` (Python call semantics); otherwise the remaining parameters are
layered on top. -/
def mkDomeLightCfg (intensity : ℚ) (texture_file : TexValue)
    (spawn_kwargs : List (String × PyVal)) : Except PyError DomeLightCfg :=
  if spawn_kwargs.any (fun kv => kv.1 == "intensity" || kv.1 == "texture_file") then
    Except.error (PyError.typeError "got multiple values for keyword argument")
  else
    Except.ok { intensity := intensity, texture_file := texture_file, extra := spawn_kwargs }

/-- The asset configuration returned by `sky_from_env_cfg`.  Modelled from
the spec: `AssetBaseCfg` is an external config holding the prim path and
the spawn configuration, with additional keyword parameters layered on. -/
structure AssetBaseCfg where
  prim_path : String
  spawn : DomeLightCfg
  extra : List (String × PyVal)
deriving DecidableEq

/-- The Python call `AssetBaseCfg(prim_path=…, spawn=…, **kwargs)`, with the
same duplicate-keyword call semantics as `mkDomeLightCfg`. -/
def mkAssetBaseCfg (prim_path : String) (spawn : DomeLightCfg)
    (kwargs : List (String × PyVal)) : Except PyError AssetBaseCfg :=
  if kwargs.any (fun kv => kv.1 == "prim_path" || kv.1 == "spawn") then
    Except.error (PyError.typeError "got multiple values for keyword argument")
  else
    Except.ok { prim_path := prim_path, spawn := spawn, extra := kwargs }

/-- `sky_from_env_cfg` of `sky.py`: dispatch on the scenario tag to a
texture source, then build the dome-light asset configuration with
intensity `0.25 * env_cfg.scenario.light_intensity`.  An unmatched tag
leaves `texture_file` at `None` and the function returns `None`. -/
def sky_from_env_cfg (env_cfg : EnvironmentConfig) (prim_path : String)
    (spawn_kwargs : List (String × PyVal)) (kwargs : List (String × PyVal)) :
    Except PyError (Option AssetBaseCfg) :=
  let texture_file : Option TexValue :=
    match env_cfg.scenario.tag with
    | ScenarioTag.EARTH =>
        some (TexValue.tuple1
          (ISAAC_NUCLEUS_DIR ++ "/Materials/Textures/Skies/PolyHaven/kloofendal_43d_clear_puresky_4k.hdr"))
    | ScenarioTag.MARS =>
        some (TexValue.str (pathJoin SRB_ASSETS_DIR_SRB_HDRI "martian_sky_day.hdr"))
    | ScenarioTag.ORBIT =>
        some (TexValue.str (pathJoin SRB_ASSETS_DIR_SRB_HDRI "low_lunar_orbit.jpg"))
    | ScenarioTag.OTHER => none
  match texture_file with
  | none => Except.ok none
  | some tf =>
    match mkDomeLightCfg (1/4 * env_cfg.scenario.light_intensity) tf spawn_kwargs with
    | Except.error e => Except.error e
    | Except.ok spawn =>
      match mkAssetBaseCfg prim_path spawn kwargs with
      | Except.error e => Except.error e
      | Except.ok cfg => Except.ok (some cfg)

/-! ## SpaceMouse teleoperation adapter (`se3_spacemouse.py`) -/

/-- The 6-axis raw device state delivered by the vendor driver
(`pyspacemouse.SpaceNavigator`), modelled with exact rational axes. -/
structure SpaceNavigator where
  x : ℚ
  y : ℚ
  z : ℚ
  roll : ℚ
  pitch : ℚ
  yaw : ℚ
deriving DecidableEq

/-- The mutable state of a `Se3SpaceMouse` adapter.  Registered callbacks
are external zero-argument actions; the registry maps a key to an opaque
action identifier and the embedding records which actions a callback
invocation fires.  `thread_spawned` records whether `__init__` created the
`_thread` attribute (device open succeeded). -/
structure Se3SpaceMouse where
  pos_sensitivity : ℚ
  rot_sensitivity : ℚ
  sleep_rate : ℚ
  close_gripper : Bool
  delta_pos : ℚ × ℚ × ℚ
  delta_rot : ℚ × ℚ × ℚ
  additional_callbacks : List (String × ℕ)
deriving DecidableEq

/-- Whether a Python dict modelled as an association list holds a key. -/
def dictHas (d : List (String × ℕ)) (k : String) : Bool :=
  d.any (fun kv => kv.1 == k)

/-- Lookup in a Python dict modelled as an association list. -/
def dictGet : List (String × ℕ) → String → Option ℕ
  | [], _ => none
  | kv :: tl, k => if kv.1 == k then some kv.2 else dictGet tl k

/-- Python dict assignment `d[k] = v`: replace the value of an existing key
in place, or append a new entry at the end. -/
def dictSet : List (String × ℕ) → String → ℕ → List (String × ℕ)
  | [], k, v => [(k, v)]
  | kv :: tl, k, v => if kv.1 == k then (k, v) :: tl else kv :: dictSet tl k v

/-- The outcome of the `pyspacemouse.open` attempt in `__init__`:
it returns true, returns false, or raises. -/
inductive OpenResult where
  | success
  | failure
  | raises (msg : String)
deriving DecidableEq

/-- The adapter `__init__` paired with what it prints to stderr and whether
it spawned the background polling thread.  On a successful open it starts
one background thread; on failure or exception it only prints a diagnostic
and leaves the command buffers at their zero defaults. -/
def Se3SpaceMouse.init (pos_sensitivity rot_sensitivity rate : ℚ)
    (openResult : OpenResult) : Se3SpaceMouse × List String × Bool :=
  let base : Se3SpaceMouse :=
    { pos_sensitivity := pos_sensitivity
      rot_sensitivity := rot_sensitivity
      sleep_rate := 1 / rate
      close_gripper := false
      delta_pos := (0, 0, 0)
      delta_rot := (0, 0, 0)
      additional_callbacks := [] }
  match openResult with
  | OpenResult.success => (base, [], true)
  | OpenResult.failure =>
      (base, ["[ERROR] Failed to open a SpaceMouse device. Is it connected?"], false)
  | OpenResult.raises msg =>
      (base, ["[ERROR] Failed to open a SpaceMouse device. Is it connected?\n" ++ msg], false)

/-- `__del__`: accesses `self._thread` and joins it.  When the device never
opened, `_thread` was never assigned, so the attribute access raises
`AttributeError`; the join itself is outside the modelled excerpt. -/
def Se3SpaceMouse.teardown (thread_spawned : Bool) : Except PyError Unit :=
  if thread_spawned then Except.ok ()
  else Except.error (PyError.attributeError "_thread")

/-- `reset`: zero both command buffers and clear the gripper latch. -/
def Se3SpaceMouse.reset (s : Se3SpaceMouse) : Se3SpaceMouse :=
  { s with close_gripper := false, delta_pos := (0, 0, 0), delta_rot := (0, 0, 0) }

/-- `add_callback`: only the keys L, R and LR are accepted; any other key
raises `ValueError` before the registry is touched. -/
def Se3SpaceMouse.add_callback (s : Se3SpaceMouse) (key : String) (func : ℕ) :
    Except PyError Se3SpaceMouse :=
  if key ∈ ["L", "R", "LR"] then
    Except.ok { s with additional_callbacks := dictSet s.additional_callbacks key func }
  else
    Except.error (PyError.valueError
      ("Only left (L), right (R), and right-left (LR) buttons supported. Provided: "
        ++ key ++ "."))

/-- `_cb_dof`: overwrite both command buffers from the raw axes, permuting
and rescaling translation as (y, -x, z) times the position sensitivity and
negating all three rotation axes times the rotation sensitivity. -/
def Se3SpaceMouse.cb_dof (s : Se3SpaceMouse) (state : SpaceNavigator) : Se3SpaceMouse :=
  { s with
    delta_pos :=
      (state.y * s.pos_sensitivity, -state.x * s.pos_sensitivity, state.z * s.pos_sensitivity)
    delta_rot :=
      (-state.roll * s.rot_sensitivity, -state.pitch * s.rot_sensitivity,
        -state.yaw * s.rot_sensitivity) }

/-- `_cb_button`: three independent branches over the button vector.  The
result is the new adapter state, the keys of the registered callbacks that
were invoked, in order, and the exception, if any: indexing `buttons[0]` or
`buttons[1]` on a vector shorter than two raises `IndexError` after the
effects of the branches already executed. -/
def Se3SpaceMouse.cb_button (s : Se3SpaceMouse) (buttons : List Bool) :
    Se3SpaceMouse × List String × Option PyError :=
  match buttons with
  | [] => (s, [], some (PyError.indexError "list index out of range"))
  | [b0] =>
    let s1 := if b0 then s.reset else s
    let c1 := if b0 && dictHas s.additional_callbacks "L" then ["L"] else []
    (s1, c1, some (PyError.indexError "list index out of range"))
  | b0 :: b1 :: rest =>
    let s1 := if b0 then s.reset else s
    let c1 := if b0 && dictHas s.additional_callbacks "L" then ["L"] else []
    let s2 := if b1 then { s1 with close_gripper := !s1.close_gripper } else s1
    let c2 := if b1 && dictHas s.additional_callbacks "R" then ["R"] else []
    let c3 := if (b0 :: b1 :: rest).all id && dictHas s.additional_callbacks "LR"
      then ["LR"] else []
    (s2, c1 ++ c2 ++ c3, none)

/-- A real quaternion, scalar part first, modelling scipy rotations. -/
structure Quat where
  w : ℝ
  x : ℝ
  y : ℝ
  z : ℝ

/-- The Hamilton product of two quaternions. -/
def quatMul (p q : Quat) : Quat :=
  { w := p.w * q.w - p.x * q.x - p.y * q.y - p.z * q.z
    x := p.w * q.x + p.x * q.w + p.y * q.z - p.z * q.y
    y := p.w * q.y - p.x * q.z + p.y * q.w + p.z * q.x
    z := p.w * q.z + p.x * q.y - p.y * q.x + p.z * q.w }

/-- The quaternion of a rotation by angle `a` about the X axis. -/
noncomputable def quatAboutX (a : ℝ) : Quat :=
  { w := Real.cos (a / 2), x := Real.sin (a / 2), y := 0, z := 0 }

/-- The quaternion of a rotation by angle `a` about the Y axis. -/
noncomputable def quatAboutY (a : ℝ) : Quat :=
  { w := Real.cos (a / 2), x := 0, y := Real.sin (a / 2), z := 0 }

/-- The quaternion of a rotation by angle `a` about the Z axis. -/
noncomputable def quatAboutZ (a : ℝ) : Quat :=
  { w := Real.cos (a / 2), x := 0, y := 0, z := Real.sin (a / 2) }

/-- `Rotation.from_euler("XYZ", (r, p, y))` of scipy: intrinsic rotations
about X, then Y, then Z, composed as a quaternion product in that order. -/
noncomputable def fromEulerXYZ (r p y : ℝ) : Quat :=
  quatMul (quatMul (quatAboutX r) (quatAboutY p)) (quatAboutZ y)

/-- The two-argument arctangent, as used by scipy when converting a
quaternion to a rotation vector. -/
noncomputable def atan2 (y x : ℝ) : ℝ :=
  if 0 < x then Real.arctan (y / x)
  else if x < 0 then
    (if 0 ≤ y then Real.arctan (y / x) + Real.pi else Real.arctan (y / x) - Real.pi)
  else
    (if 0 < y then Real.pi / 2 else if y < 0 then -(Real.pi / 2) else 0)

/-- `as_rotvec` of scipy: the rotation vector of a unit quaternion, with
vector part `v` and angle `2 * atan2 (norm v) w`; a zero vector part maps
to the zero rotation vector. -/
noncomputable def asRotvec (q : Quat) : ℝ × ℝ × ℝ :=
  let n := Real.sqrt (q.x ^ 2 + q.y ^ 2 + q.z ^ 2)
  if n = 0 then (0, 0, 0)
  else
    let angle := 2 * atan2 n q.w
    (angle / n * q.x, angle / n * q.y, angle / n * q.z)

/-- `advance`: convert `delta_rot` through the scipy pipeline
`Rotation.from_euler("XYZ", _).as_rotvec()` and return the concatenation of
`delta_pos` with the rotation vector, plus the gripper latch. -/
noncomputable def Se3SpaceMouse.advance (s : Se3SpaceMouse) : List ℝ × Bool :=
  let rv := asRotvec (fromEulerXYZ (s.delta_rot.1 : ℝ) (s.delta_rot.2.1 : ℝ) (s.delta_rot.2.2 : ℝ))
  (([(s.delta_pos.1 : ℝ), (s.delta_pos.2.1 : ℝ), (s.delta_pos.2.2 : ℝ)] : List ℝ)
      ++ [rv.1, rv.2.1, rv.2.2],
    s.close_gripper)

/-- The operations a caller can still perform on an adapter whose device
never opened: the device callbacks `_cb_dof` and `_cb_button` are invoked
only by the driver from the background polling thread, which exists only
when the open succeeded, so in the degraded state only the public mutating
methods can run. -/
inductive CallerOp where
  | resetCall
  | addCb (key : String) (func : ℕ)

/-- Apply one caller operation; a failing `add_callback` raises before the
registry assignment, so the state is unchanged. -/
def applyCallerOp (s : Se3SpaceMouse) : CallerOp → Se3SpaceMouse
  | CallerOp.resetCall => s.reset
  | CallerOp.addCb k f =>
    match s.add_callback k f with
    | Except.ok s2 => s2
    | Except.error _ => s

/-- Apply a sequence of caller operations in order. -/
def applyCallerOps (s : Se3SpaceMouse) (ops : List CallerOp) : Se3SpaceMouse :=
  ops.foldl applyCallerOp s

/-! ## Theorems about the scenario lighting selector -/

instance {ε α : Type} [DecidableEq ε] [DecidableEq α] : DecidableEq (Except ε α) := fun x y =>
  match x, y with
  | Except.ok a, Except.ok b =>
    if h : a = b then isTrue (by rw [h]) else isFalse (by simp [h])
  | Except.error a, Except.error b =>
    if h : a = b then isTrue (by rw [h]) else isFalse (by simp [h])
  | Except.ok _, Except.error _ => isFalse (by simp)
  | Except.error _, Except.ok _ => isFalse (by simp)

/-- Inversion: whenever `sky_from_env_cfg` returns a descriptor, the
descriptor records the prim path, the quarter-scaled intensity, and both
keyword layers, and the scenario tag was a known one. -/
theorem sky_ok_some_spec (cfg : EnvironmentConfig) (pp : String)
    (kw kwargs : List (String × PyVal)) (d : AssetBaseCfg)
    (h : sky_from_env_cfg cfg pp kw kwargs = Except.ok (some d)) :
    d.prim_path = pp ∧ d.spawn.intensity = 1/4 * cfg.scenario.light_intensity ∧
      d.spawn.extra = kw ∧ d.extra = kwargs ∧ cfg.scenario.tag ≠ ScenarioTag.OTHER := by
  obtain ⟨⟨tag, li⟩⟩ := cfg
  cases hkw : kw.any fun kv => kv.1 == "intensity" || kv.1 == "texture_file" <;>
    cases hkwargs : kwargs.any fun kv => kv.1 == "prim_path" || kv.1 == "spawn" <;>
    cases tag <;>
    simp [sky_from_env_cfg, mkDomeLightCfg, mkAssetBaseCfg, hkw, hkwargs] at h <;>
    (try subst h) <;> simp_all

/-- C1: for every scenario configuration, `sky_from_env_cfg` (with no
overrides) returns `ok none` exactly on the unrecognized tag and returns a
descriptor exactly on the three known tags EARTH, MARS and ORBIT. -/
theorem C1_sky_descriptor_iff_known_tag (cfg : EnvironmentConfig) :
    (sky_from_env_cfg cfg "/World/sky" [] [] = Except.ok none ↔
      cfg.scenario.tag = ScenarioTag.OTHER) ∧
    ((∃ d, sky_from_env_cfg cfg "/World/sky" [] [] = Except.ok (some d)) ↔
      cfg.scenario.tag ≠ ScenarioTag.OTHER) := by
  obtain ⟨⟨tag, li⟩⟩ := cfg
  cases tag <;>
    simp [sky_from_env_cfg, mkDomeLightCfg, mkAssetBaseCfg]

/-- C2: every descriptor returned by `sky_from_env_cfg` carries intensity
exactly one quarter of the scenario light intensity. -/
theorem C2_intensity_quarter (cfg : EnvironmentConfig) (pp : String)
    (kw kwargs : List (String × PyVal)) (d : AssetBaseCfg)
    (h : sky_from_env_cfg cfg pp kw kwargs = Except.ok (some d)) :
    d.spawn.intensity = 1/4 * cfg.scenario.light_intensity :=
  (sky_ok_some_spec cfg pp kw kwargs d h).2.1

/-- Witness for C2 at the MARS scenario with light intensity 4. -/
theorem C2_intensity_quarter_witness :
    (AssetBaseCfg.mk "/World/sky"
        (DomeLightCfg.mk (1/4 * 4)
          (TexValue.str (pathJoin SRB_ASSETS_DIR_SRB_HDRI "martian_sky_day.hdr")) [])
        []).spawn.intensity =
      1/4 * (EnvironmentConfig.mk (Scenario.mk ScenarioTag.MARS 4)).scenario.light_intensity :=
  C2_intensity_quarter (EnvironmentConfig.mk (Scenario.mk ScenarioTag.MARS 4)) "/World/sky" [] []
    _ rfl

/-- C3 counterexample: an overrides map that itself carries an `intensity`
entry does not win over the computed intensity; the keyword expansion
raises `TypeError`, so no descriptor is built. -/
theorem C3_counterexample_intensity_override :
    sky_from_env_cfg (EnvironmentConfig.mk (Scenario.mk ScenarioTag.MARS 1)) "/World/sky"
      [("intensity", PyVal.num 5)] [] =
      Except.error (PyError.typeError "got multiple values for keyword argument") := rfl

/-- C3 amended: for every known scenario, overrides whose keys avoid
`intensity` and `texture_file` are layered on top of the computed texture
and intensity; an override of those two keys instead raises `TypeError`
(see the counterexample). -/
theorem C3_amended_overrides_layered (cfg : EnvironmentConfig) (kw : List (String × PyVal))
    (hk : cfg.scenario.tag ≠ ScenarioTag.OTHER)
    (hdisj : ∀ p ∈ kw, p.1 ≠ "intensity" ∧ p.1 ≠ "texture_file") :
    ∃ d : AssetBaseCfg, sky_from_env_cfg cfg "/World/sky" kw [] = Except.ok (some d) ∧
      d.spawn.extra = kw ∧ d.spawn.intensity = 1/4 * cfg.scenario.light_intensity := by
  obtain ⟨⟨tag, li⟩⟩ := cfg
  have hany : (kw.any fun kv => kv.1 == "intensity" || kv.1 == "texture_file") = false := by
    simp only [List.any_eq_false, Bool.or_eq_true, beq_iff_eq, not_or]
    intro p hp
    exact ⟨(hdisj p hp).1, (hdisj p hp).2⟩
  cases tag
  · exact ⟨AssetBaseCfg.mk "/World/sky"
      (DomeLightCfg.mk (1/4 * li)
        (TexValue.tuple1 (ISAAC_NUCLEUS_DIR ++
          "/Materials/Textures/Skies/PolyHaven/kloofendal_43d_clear_puresky_4k.hdr")) kw) [],
      by simp [sky_from_env_cfg, mkDomeLightCfg, mkAssetBaseCfg, hany], rfl, rfl⟩
  · exact ⟨AssetBaseCfg.mk "/World/sky"
      (DomeLightCfg.mk (1/4 * li)
        (TexValue.str (pathJoin SRB_ASSETS_DIR_SRB_HDRI "martian_sky_day.hdr")) kw) [],
      by simp [sky_from_env_cfg, mkDomeLightCfg, mkAssetBaseCfg, hany], rfl, rfl⟩
  · exact ⟨AssetBaseCfg.mk "/World/sky"
      (DomeLightCfg.mk (1/4 * li)
        (TexValue.str (pathJoin SRB_ASSETS_DIR_SRB_HDRI "low_lunar_orbit.jpg")) kw) [],
      by simp [sky_from_env_cfg, mkDomeLightCfg, mkAssetBaseCfg, hany], rfl, rfl⟩
  · exact absurd rfl hk

/-- Witness for C3 amended at the EARTH scenario with one disjoint
override entry. -/
theorem C3_amended_overrides_layered_witness :
    ∃ d : AssetBaseCfg,
      sky_from_env_cfg (EnvironmentConfig.mk (Scenario.mk ScenarioTag.EARTH 1)) "/World/sky"
          [("exposure", PyVal.num 2)] [] = Except.ok (some d) ∧
        d.spawn.extra = [("exposure", PyVal.num 2)] ∧
        d.spawn.intensity =
          1/4 * (EnvironmentConfig.mk (Scenario.mk ScenarioTag.EARTH 1)).scenario.light_intensity :=
  C3_amended_overrides_layered (EnvironmentConfig.mk (Scenario.mk ScenarioTag.EARTH 1))
    [("exposure", PyVal.num 2)] (by decide) (by decide)

/-- C4: evaluated at the EARTH scenario, the source binds `texture_file` to
a Python 1-tuple holding the HDR path (the EARTH branch ends in a trailing
comma), not to a plain path string as in the MARS and ORBIT branches and as
the annotation `texture_file: Optional[str]` declares. -/
theorem C4_earth_texture_is_tuple :
    sky_from_env_cfg (EnvironmentConfig.mk (Scenario.mk ScenarioTag.EARTH 1)) "/World/sky" [] [] =
      Except.ok (some (AssetBaseCfg.mk "/World/sky"
        (DomeLightCfg.mk (1/4 * 1)
          (TexValue.tuple1 (ISAAC_NUCLEUS_DIR ++
            "/Materials/Textures/Skies/PolyHaven/kloofendal_43d_clear_puresky_4k.hdr"))
          []) [])) := rfl

/-! ## Theorems about the SpaceMouse adapter -/

/-- C5: with the default sensitivities 0.4 and 0.8, a motion event with raw
axes (1, 2, 3, 0.1, 0.2, 0.3) overwrites the buffers with exactly
`delta_pos = (0.8, -0.4, 1.2)` and `delta_rot = (-0.08, -0.16, -0.24)`,
regardless of the prior buffer contents. -/
theorem C5_dof_default_sensitivities (s : Se3SpaceMouse)
    (hp : s.pos_sensitivity = 2/5) (hr : s.rot_sensitivity = 4/5) :
    (s.cb_dof (SpaceNavigator.mk 1 2 3 (1/10) (2/10) (3/10))).delta_pos =
        (4/5, -(2/5), 6/5) ∧
      (s.cb_dof (SpaceNavigator.mk 1 2 3 (1/10) (2/10) (3/10))).delta_rot =
        (-(2/25), -(4/25), -(6/25)) := by
  simp only [Se3SpaceMouse.cb_dof, hp, hr, Prod.mk.injEq]
  norm_num

/-- Witness for C5 at a freshly constructed adapter with the default
sensitivities. -/
theorem C5_dof_default_sensitivities_witness :
    ((Se3SpaceMouse.init (2/5) (4/5) 1000 OpenResult.success).1.cb_dof
          (SpaceNavigator.mk 1 2 3 (1/10) (2/10) (3/10))).delta_pos =
        (4/5, -(2/5), 6/5) ∧
      ((Se3SpaceMouse.init (2/5) (4/5) 1000 OpenResult.success).1.cb_dof
          (SpaceNavigator.mk 1 2 3 (1/10) (2/10) (3/10))).delta_rot =
        (-(2/25), -(4/25), -(6/25)) :=
  C5_dof_default_sensitivities _ rfl rfl

/-- C6 counterexample: a button event pressing both buttons presses the
left button, yet afterwards the gripper latch holds, because the right
branch toggles the latch after the reset of the left branch. -/
theorem C6_counterexample_chord_sets_gripper :
    (((Se3SpaceMouse.init (2/5) (4/5) 1000 OpenResult.success).1.cb_button
        [true, true]).1).close_gripper = true := rfl

/-- C6 amended: after any button event with the left button pressed, both
command buffers are exactly zero regardless of prior state, and the gripper
latch equals the right button of the same event: cleared by the reset, then
toggled to true exactly when the right button is also pressed. -/
theorem C6_amended_left_resets (s : Se3SpaceMouse) (b1 : Bool) (rest : List Bool) :
    ((s.cb_button (true :: b1 :: rest)).1).delta_pos = (0, 0, 0) ∧
      ((s.cb_button (true :: b1 :: rest)).1).delta_rot = (0, 0, 0) ∧
      ((s.cb_button (true :: b1 :: rest)).1).close_gripper = b1 := by
  cases b1 <;> simp [Se3SpaceMouse.cb_button, Se3SpaceMouse.reset]

/-- A freshly constructed adapter with only the LR chord action (id 7)
registered. -/
def smLR : Se3SpaceMouse :=
  applyCallerOp (Se3SpaceMouse.init (2/5) (4/5) 1000 OpenResult.success).1
    (CallerOp.addCb "LR" 7)

/-- C7 counterexample: on the three-button vector [true, true, false] the
left and right buttons are both pressed and an LR action is registered, yet
no registered callback is invoked, because the chord branch tests
`all(buttons)` over the whole vector. -/
theorem C7_counterexample_chord_needs_all :
    dictHas smLR.additional_callbacks "LR" = true ∧
      (smLR.cb_button [true, true, false]).2.1 = [] := ⟨rfl, rfl⟩

/-- C7 amended: the three branches accumulate independently on every
invocation: the L action fires exactly when the left button is pressed and
registered, the R action exactly when the right button is pressed and
registered, and the LR action exactly when every button of the vector is
pressed (not merely the first two) and LR is registered. -/
theorem C7_amended_branches_cumulative (s : Se3SpaceMouse) (b0 b1 : Bool) (rest : List Bool) :
    ((s.cb_button (b0 :: b1 :: rest)).2.1.contains "L"
        = (b0 && dictHas s.additional_callbacks "L")) ∧
      ((s.cb_button (b0 :: b1 :: rest)).2.1.contains "R"
        = (b1 && dictHas s.additional_callbacks "R")) ∧
      ((s.cb_button (b0 :: b1 :: rest)).2.1.contains "LR"
        = ((b0 :: b1 :: rest).all id && dictHas s.additional_callbacks "LR")) := by
  cases b0 <;> cases b1 <;>
    cases hL : dictHas s.additional_callbacks "L" <;>
    cases hR : dictHas s.additional_callbacks "R" <;>
    cases hLR : dictHas s.additional_callbacks "LR" <;>
    cases hall : rest.all id <;>
    simp [Se3SpaceMouse.cb_button, hL, hR, hLR, hall]

/-- C8 counterexample: the spelled-out key "left" is rejected with
`ValueError`; the registry accepts only the short keys L, R and LR. -/
theorem C8_counterexample_left_key_rejected :
    (Se3SpaceMouse.init (2/5) (4/5) 1000 OpenResult.success).1.add_callback "left" 0 =
      Except.error (PyError.valueError
        "Only left (L), right (R), and right-left (LR) buttons supported. Provided: left.") := rfl

/-- Setting a key makes lookup of that key return the new value. -/
theorem dictGet_dictSet_self (d : List (String × ℕ)) (k : String) (v : ℕ) :
    dictGet (dictSet d k v) k = some v := by
  induction d with
  | nil => simp [dictSet, dictGet]
  | cons kv tl ih =>
    by_cases h : kv.1 = k
    · simp [dictSet, dictGet, h]
    · simp [dictSet, dictGet, h, ih]

/-- Setting a key leaves lookup of every other key unchanged. -/
theorem dictGet_dictSet_other (d : List (String × ℕ)) (k k2 : String) (v : ℕ)
    (h : k2 ≠ k) : dictGet (dictSet d k v) k2 = dictGet d k2 := by
  induction d with
  | nil => simp [dictSet, dictGet, Ne.symm h]
  | cons kv tl ih =>
    by_cases hk : kv.1 = k
    · simp [dictSet, dictGet, hk, Ne.symm h]
    · by_cases hk2 : kv.1 = k2
      · simp [dictSet, dictGet, hk, hk2, h]
      · simp [dictSet, dictGet, hk, hk2, ih]

/-- C8 amended: `add_callback` succeeds exactly for the keys L, R and LR
(the short names of left, right and left+right); on success the key maps to
the new action, replacing any earlier registration, while every other
binding is untouched; any other key is rejected before the registry is
assigned. -/
theorem C8_amended_registry_keys (s : Se3SpaceMouse) (key : String) (f : ℕ) :
    (key ∈ (["L", "R", "LR"] : List String) ↔
        ∃ s2, s.add_callback key f = Except.ok s2) ∧
      (∀ s2, s.add_callback key f = Except.ok s2 →
        dictGet s2.additional_callbacks key = some f ∧
          ∀ k, k ≠ key → dictGet s2.additional_callbacks k = dictGet s.additional_callbacks k) := by
  by_cases hkey : key ∈ (["L", "R", "LR"] : List String)
  · refine ⟨⟨fun _ =>
      ⟨{ s with additional_callbacks := dictSet s.additional_callbacks key f },
        by simp [Se3SpaceMouse.add_callback, hkey]⟩, fun _ => hkey⟩, ?_⟩
    intro s2 h2
    simp only [Se3SpaceMouse.add_callback, if_pos hkey, Except.ok.injEq] at h2
    subst h2
    exact ⟨dictGet_dictSet_self _ _ _, fun k hk => dictGet_dictSet_other _ _ _ _ hk⟩
  · constructor
    · simp [Se3SpaceMouse.add_callback, hkey]
    · intro s2 h2
      simp [Se3SpaceMouse.add_callback, hkey] at h2

/-- Zero Euler angles map to the identity quaternion. -/
theorem fromEulerXYZ_zero : fromEulerXYZ 0 0 0 = Quat.mk 1 0 0 0 := by
  simp [fromEulerXYZ, quatAboutX, quatAboutY, quatAboutZ, quatMul]

/-- The rotation vector of the identity quaternion is zero. -/
theorem asRotvec_id : asRotvec (Quat.mk 1 0 0 0) = (0, 0, 0) := by
  simp [asRotvec]

/-- An adapter whose command buffers are zero and whose latch is clear
advances to the zero 6-vector with a clear latch. -/
theorem advance_of_zeroed (s : Se3SpaceMouse) (h1 : s.delta_pos = (0, 0, 0))
    (h2 : s.delta_rot = (0, 0, 0)) (h3 : s.close_gripper = false) :
    s.advance = ([0, 0, 0, 0, 0, 0], false) := by
  simp [Se3SpaceMouse.advance, h1, h2, h3, fromEulerXYZ_zero, asRotvec_id]

/-- Both command buffers zero and the gripper latch clear: the state the
adapter is constructed in and keeps while no device callback runs. -/
def zeroedBuffers (s : Se3SpaceMouse) : Prop :=
  s.delta_pos = (0, 0, 0) ∧ s.delta_rot = (0, 0, 0) ∧ s.close_gripper = false

/-- Every caller operation preserves zeroed command buffers: `reset` zeroes
them and `add_callback` touches only the registry. -/
theorem applyCallerOp_zeroed (s : Se3SpaceMouse) (op : CallerOp)
    (h : zeroedBuffers s) : zeroedBuffers (applyCallerOp s op) := by
  cases op with
  | resetCall => simp [applyCallerOp, Se3SpaceMouse.reset, zeroedBuffers]
  | addCb k f =>
    by_cases hk : k ∈ (["L", "R", "LR"] : List String) <;>
      simpa [applyCallerOp, Se3SpaceMouse.add_callback, hk, zeroedBuffers] using h

/-- Sequences of caller operations preserve zeroed command buffers. -/
theorem applyCallerOps_zeroed (s : Se3SpaceMouse) (ops : List CallerOp)
    (h : zeroedBuffers s) : zeroedBuffers (applyCallerOps s ops) := by
  induction ops generalizing s with
  | nil => simpa [applyCallerOps] using h
  | cons op tl ih =>
    simpa [applyCallerOps] using ih (applyCallerOp s op) (applyCallerOp_zeroed s op h)

/-- C9: when the device open fails, either by returning false or by
raising, construction spawns no background thread, prints a diagnostic to
stderr, and after any sequence of caller operations `advance` still returns
the zero 6-vector with the gripper latch clear. -/
theorem C9_failed_open_degraded (ps rs rate : ℚ) (oRes : OpenResult) (ops : List CallerOp)
    (h : oRes ≠ OpenResult.success) :
    (Se3SpaceMouse.init ps rs rate oRes).2.2 = false ∧
      (Se3SpaceMouse.init ps rs rate oRes).2.1 ≠ [] ∧
      (applyCallerOps (Se3SpaceMouse.init ps rs rate oRes).1 ops).advance =
        ([0, 0, 0, 0, 0, 0], false) := by
  have hz : zeroedBuffers (Se3SpaceMouse.init ps rs rate oRes).1 := by
    cases oRes <;> simp [Se3SpaceMouse.init, zeroedBuffers]
  have hzs := applyCallerOps_zeroed _ ops hz
  have hadv := advance_of_zeroed _ hzs.1 hzs.2.1 hzs.2.2
  cases oRes with
  | success => exact absurd rfl h
  | failure => exact ⟨rfl, by simp [Se3SpaceMouse.init], hadv⟩
  | raises msg => exact ⟨rfl, by simp [Se3SpaceMouse.init], hadv⟩

/-- Witness for C9: a default-parameter adapter whose open returned false,
with no further caller operations. -/
theorem C9_failed_open_degraded_witness :
    (Se3SpaceMouse.init (2/5) (4/5) 1000 OpenResult.failure).2.2 = false ∧
      (Se3SpaceMouse.init (2/5) (4/5) 1000 OpenResult.failure).2.1 ≠ [] ∧
      (applyCallerOps (Se3SpaceMouse.init (2/5) (4/5) 1000 OpenResult.failure).1 []).advance =
        ([0, 0, 0, 0, 0, 0], false) :=
  C9_failed_open_degraded (2/5) (4/5) 1000 OpenResult.failure [] (by decide)

/-- C10: teardown joins `self._thread`, an attribute `__init__` assigns
only when the device opened, so `__del__` raises `AttributeError` exactly
when the open did not succeed. -/
theorem C10_teardown_requires_thread (ps rs rate : ℚ) (oRes : OpenResult) :
    Se3SpaceMouse.teardown (Se3SpaceMouse.init ps rs rate oRes).2.2 =
      (if oRes = OpenResult.success then Except.ok ()
        else Except.error (PyError.attributeError "_thread")) := by
  cases oRes <;> rfl

end SRB
